import Mathlib

/-!
# Rate-data update protocol of `src/kinetics/ReactionData.cpp`

A shallow embedding of the `update` member functions of the reaction-rate data
records (`ArrheniusData`, `BlowersMaselData`, `FalloffData`, `PlogData`,
`ChebyshevData`, `CustomFunc1Data`).

* A C++ `double` is its IEEE-754 binary64 bit pattern; `!=` is the IEEE
  comparison (a NaN differs from everything, itself included; the two zeros do
  not differ).
* A member function that mutates `*this` is a function from the record before
  the call to the record after it.
* The collaborators `ThermoPhase` and `Kinetics` are records of the values and
  buffer transformers their (virtual) member functions deliver.
* Every call a function body makes is listed, in program order, in a call trace.
-/

namespace Cantera

/-! ## IEEE-754 binary64 -/

/-- C++ `double`: an IEEE-754 binary64 value, given by its 64 bits
(sign bit 63, exponent bits 62..52, fraction bits 51..0). -/
structure Double where
  bits : Fin (2 ^ 64)
deriving DecidableEq

/-- Biased exponent field (11 bits). -/
def Double.expField (x : Double) : Nat := x.bits.val / 2 ^ 52 % 2 ^ 11

/-- Fraction field (52 bits). -/
def Double.fracField (x : Double) : Nat := x.bits.val % 2 ^ 52

/-- A NaN has all exponent bits set and a non-zero fraction. -/
def Double.isNaN (x : Double) : Bool := x.expField == 2047 && x.fracField != 0

/-- Positive or negative zero: every bit but the sign bit is clear. -/
def Double.isZero (x : Double) : Bool := x.bits.val % 2 ^ 63 == 0

/-- C++ `a != b` on doubles: true when either operand is a NaN, otherwise true
exactly when the operands denote different numbers (`+0` and `-0` denote the same
number, every other non-NaN bit pattern denotes a number of its own). -/
def Double.ne (a b : Double) : Bool :=
  a.isNaN || b.isNaN || (!(a.isZero && b.isZero) && a.bits != b.bits)

/-- The literal `0.`. -/
def Double.zero : Double := ⟨⟨0, by decide⟩⟩

/-- The literal `1.` (bits `0x3FF0000000000000`). -/
def Double.one : Double := ⟨⟨0x3FF0000000000000, by decide⟩⟩

/-- The macro `NAN` converted to `double`: the quiet NaN `0x7FF8000000000000`. -/
def Double.NAN : Double := ⟨⟨0x7FF8000000000000, by decide⟩⟩

/-- Sign bit (bit 63). -/
def Double.signBit (x : Double) : Bool := x.bits.val / 2 ^ 63 == 1

/-- C++ `x <= 0.` on doubles: false for a NaN, otherwise true for the two zeros and
for every value with the sign bit set. -/
def Double.leZero (x : Double) : Bool := !x.isNaN && (x.isZero || x.signBit)

/-- The floating-point operations the code takes from outside the repository:
`std::log` of the C math library and the division operator of the language. -/
structure FloatOps where
  log : Double → Double
  div : Double → Double → Double

/-! ## Collaborators -/

/-- The part of `ThermoPhase` that `ReactionData.cpp` reads. The getters deliver
the current values; `getPartialMolarEnthalpies` maps the content of the buffer it
is handed to the content it leaves there. -/
structure ThermoPhase where
  temperature : Double
  pressure : Double
  density : Double
  molarDensity : Double
  stateMFNumber : Int
  getPartialMolarEnthalpies : List Double → List Double

/-- The part of `Kinetics` that `ReactionData.cpp` calls. `getReactionDelta prop
out` is the content left in the output buffer `out` for the per-species input
`prop`; `getThirdBodyConcentrations buf` is the content left in `buf`. -/
structure Kinetics where
  getReactionDelta : List Double → List Double → List Double
  getThirdBodyConcentrations : List Double → List Double

/-- `CanteraError(procedure, msg)`. -/
structure CanteraError where
  procedure : String
  msg : String
deriving DecidableEq

/-- One call made by a function body. -/
inductive Call where
  | temperature
  | pressure
  | density
  | molarDensity
  | stateMFNumber
  | getPartialMolarEnthalpies
  | getReactionDelta
  | getThirdBodyConcentrations
  | updateT (T : Double)
  | updateTP (T P : Double)
deriving DecidableEq

/-- The calls that are member functions of the `Kinetics` object. -/
def Call.onKinetics : Call → Bool
  | .getReactionDelta => true
  | .getThirdBodyConcentrations => true
  | _ => false

/-- What a full `update(bulk, kin)` leaves behind: the returned pair
`(slowChanged, fastChanged)`, the record after the call, and the calls made. -/
structure Outcome (σ : Type) where
  changed : Bool × Bool
  data : σ
  calls : List Call

/-! ## PlogData -/

/-- Modelled from the spec: the declaration of `PlogData` (header
`ReactionData.h`, not among the sources). Fields: the common temperature terms
and `pressure`; `temperature` and `pressure` are the members the source reads. -/
structure PlogData where
  temperature : Double
  logT : Double
  recipT : Double
  pressure : Double
deriving DecidableEq

/-- `void PlogData::update(double T)`: throws; the record is not touched. The
result pairs what the call delivers with the record after it. -/
def PlogData.update (d : PlogData) (_T : Double) : Except CanteraError Unit × PlogData :=
  (.error ⟨"PlogData::update",
      "Missing state information: reaction type requires pressure."⟩, d)

/-! ## ChebyshevData -/

/-- Modelled from the spec: the declaration of `ChebyshevData` (header
`ReactionData.h`, not among the sources). Fields: the common temperature terms
and `pressure`; `temperature` and `pressure` are the members the source reads. -/
structure ChebyshevData where
  temperature : Double
  logT : Double
  recipT : Double
  pressure : Double
deriving DecidableEq

/-- `void ChebyshevData::update(double T)`: throws; the record is not touched. -/
def ChebyshevData.update (d : ChebyshevData) (_T : Double) :
    Except CanteraError Unit × ChebyshevData :=
  (.error ⟨"ChebyshevData::update",
      "Missing state information: reaction type requires pressure."⟩, d)

/-- Modelled from the spec: the inline `void PlogData::update(double T, double P)`
of the header `ReactionData.h`, not among the sources: "sets `pressure` and
`temperature` and recomputes temperature terms". -/
def PlogData.updateTP (ops : FloatOps) (d : PlogData) (T P : Double) : PlogData :=
  { d with temperature := T, logT := ops.log T, recipT := ops.div Double.one T,
           pressure := P }

/-- `std::pair<bool, bool> PlogData::update(const ThermoPhase& bulk, const Kinetics& kin)`. -/
def PlogData.updateBulk (ops : FloatOps) (d : PlogData) (bulk : ThermoPhase)
    (_kin : Kinetics) : Outcome PlogData :=
  let T := bulk.temperature
  let P := bulk.pressure
  let changed : Bool × Bool := (P.ne d.pressure, P.ne d.pressure || T.ne d.temperature)
  ⟨changed, d.updateTP ops T P, [.temperature, .pressure, .updateTP T P]⟩

/-- Modelled from the spec: the inline `void ChebyshevData::update(double T, double P)`
of the header `ReactionData.h`, not among the sources: "sets `pressure` and
`temperature` and recomputes temperature terms". -/
def ChebyshevData.updateTP (ops : FloatOps) (d : ChebyshevData) (T P : Double) :
    ChebyshevData :=
  { d with temperature := T, logT := ops.log T, recipT := ops.div Double.one T,
           pressure := P }

/-- `std::pair<bool, bool> ChebyshevData::update(const ThermoPhase& bulk, const Kinetics& kin)`. -/
def ChebyshevData.updateBulk (ops : FloatOps) (d : ChebyshevData) (bulk : ThermoPhase)
    (_kin : Kinetics) : Outcome ChebyshevData :=
  let T := bulk.temperature
  let P := bulk.pressure
  let changed : Bool × Bool := (P.ne d.pressure, P.ne d.pressure || T.ne d.temperature)
  ⟨changed, d.updateTP ops T P, [.temperature, .pressure, .updateTP T P]⟩

/-! ## ArrheniusData -/

/-- Modelled from the spec: the declaration of `ArrheniusData` (header
`ReactionData.h`, not among the sources): the common temperature terms;
`temperature` is the member the source reads. -/
structure ArrheniusData where
  temperature : Double
  logT : Double
  recipT : Double
deriving DecidableEq

/-- Modelled from the spec: the inline `void ArrheniusData::update(double T)` of the
header `ReactionData.h`, not among the sources: "recompute
`logTemperature = ln(temperature)`, `reciprocalTemperature = 1/temperature`". -/
def ArrheniusData.update (ops : FloatOps) (d : ArrheniusData) (T : Double) : ArrheniusData :=
  { d with temperature := T, logT := ops.log T, recipT := ops.div Double.one T }

/-- `std::pair<bool, bool> ArrheniusData::update(const ThermoPhase& bulk, const Kinetics& kin)`. -/
def ArrheniusData.updateBulk (ops : FloatOps) (d : ArrheniusData) (bulk : ThermoPhase)
    (_kin : Kinetics) : Outcome ArrheniusData :=
  let T := bulk.temperature
  let changed : Bool × Bool := (false, T.ne d.temperature)
  ⟨changed, d.update ops T, [.temperature, .updateT T]⟩

/-! ## BlowersMaselData -/

/-- The members of `BlowersMaselData` that the constructor initialises and `update`
uses; `dH` and `m_grt` are `vector_fp`. -/
structure BlowersMaselData where
  temperature : Double
  logT : Double
  recipT : Double
  density : Double
  state_mf_number : Int
  finalized : Bool
  dH : List Double
  m_grt : List Double
deriving DecidableEq

/-- `void BlowersMaselData::update(double T)`. -/
def BlowersMaselData.update (ops : FloatOps) (d : BlowersMaselData) (T : Double) :
    BlowersMaselData :=
  { d with temperature := T, logT := ops.log T, recipT := ops.div Double.one T }

/-- `BlowersMaselData::BlowersMaselData()`; the two vectors start empty. -/
def BlowersMaselData.new : BlowersMaselData :=
  { temperature := Double.one
    logT := Double.zero
    recipT := Double.one
    density := Double.NAN
    state_mf_number := -1
    finalized := false
    dH := []
    m_grt := [] }

/-- `std::pair<bool, bool> BlowersMaselData::update(const ThermoPhase& bulk, const Kinetics& kin)`. -/
def BlowersMaselData.updateBulk (ops : FloatOps) (d : BlowersMaselData) (bulk : ThermoPhase)
    (kin : Kinetics) : Outcome BlowersMaselData :=
  let rho := bulk.density
  let mf := bulk.stateMFNumber
  let T := bulk.temperature
  let changed : Bool × Bool := (false, T.ne d.temperature)
  if T.ne d.temperature || rho.ne d.density || mf != d.state_mf_number then
    let grt := bulk.getPartialMolarEnthalpies d.m_grt
    let d1 : BlowersMaselData :=
      { d with density := rho, state_mf_number := mf, m_grt := grt,
               dH := kin.getReactionDelta grt d.dH }
    ⟨(true, true), d1.update ops T,
      [.density, .stateMFNumber, .temperature, .getPartialMolarEnthalpies,
       .getReactionDelta, .updateT T]⟩
  else
    ⟨changed, d.update ops T, [.density, .stateMFNumber, .temperature, .updateT T]⟩

/-- The record as `BlowersMaselData::update(bulk, kin)` holds it when it calls
`kin.getReactionDelta(m_grt.data(), dH.data())`: `density = rho` and
`state_mf_number = mf` are done and `m_grt` is filled; `update(T)` has not run. -/
def BlowersMaselData.atRecompute (d : BlowersMaselData) (bulk : ThermoPhase) :
    BlowersMaselData :=
  { d with density := bulk.density, state_mf_number := bulk.stateMFNumber,
           m_grt := bulk.getPartialMolarEnthalpies d.m_grt }

/-! ## FalloffData -/

/-- Modelled from the spec: the declaration of `FalloffData` (header
`ReactionData.h`, not among the sources): the common fields, `molar_density`,
`state_mf_number` and the array `conc_3b`; `temperature`, `molar_density`,
`state_mf_number` and `conc_3b` are the members the source uses. -/
structure FalloffData where
  temperature : Double
  logT : Double
  recipT : Double
  molar_density : Double
  state_mf_number : Int
  finalized : Bool
  conc_3b : List Double
deriving DecidableEq

/-- Modelled from the spec: the inline `void FalloffData::update(double T)` of the
header `ReactionData.h`, not among the sources: "recompute
`logTemperature = ln(temperature)`, `reciprocalTemperature = 1/temperature`". -/
def FalloffData.update (ops : FloatOps) (d : FalloffData) (T : Double) : FalloffData :=
  { d with temperature := T, logT := ops.log T, recipT := ops.div Double.one T }

/-- `std::pair<bool, bool> FalloffData::update(const ThermoPhase& bulk, const Kinetics& kin)`. -/
def FalloffData.updateBulk (ops : FloatOps) (d : FalloffData) (bulk : ThermoPhase)
    (kin : Kinetics) : Outcome FalloffData :=
  let rho_m := bulk.molarDensity
  let mf := bulk.stateMFNumber
  let T := bulk.temperature
  let changed : Bool × Bool := (false, T.ne d.temperature)
  if rho_m.ne d.molar_density || mf != d.state_mf_number then
    let d1 : FalloffData :=
      { d with molar_density := rho_m, state_mf_number := mf,
               conc_3b := kin.getThirdBodyConcentrations d.conc_3b }
    ⟨(true, true), d1.update ops T,
      [.molarDensity, .stateMFNumber, .temperature, .getThirdBodyConcentrations,
       .updateT T]⟩
  else
    ⟨changed, d.update ops T, [.molarDensity, .stateMFNumber, .temperature, .updateT T]⟩

/-- The record as `FalloffData::update(bulk, kin)` holds it when it calls
`kin.getThirdBodyConcentrations(conc_3b.data())`: `molar_density = rho_m` and
`state_mf_number = mf` are done; `update(T)` has not run. -/
def FalloffData.atRecompute (d : FalloffData) (bulk : ThermoPhase) : FalloffData :=
  { d with molar_density := bulk.molarDensity, state_mf_number := bulk.stateMFNumber }

/-! ## CustomFunc1Data -/

/-- Modelled from the spec: the declaration of `CustomFunc1Data` (header
`ReactionData.h`, not among the sources): "temperature terms only";
`temperature` is the one member the source uses. -/
structure CustomFunc1Data where
  temperature : Double
  logT : Double
  recipT : Double
deriving DecidableEq

/-- `std::pair<bool, bool> CustomFunc1Data::update(const ThermoPhase& bulk, const Kinetics& kin)`. -/
def CustomFunc1Data.updateBulk (d : CustomFunc1Data) (bulk : ThermoPhase)
    (_kin : Kinetics) : Outcome CustomFunc1Data :=
  let T := bulk.temperature
  let changed : Bool × Bool := (false, T.ne d.temperature)
  ⟨changed, { d with temperature := T }, [.temperature]⟩

/-! ## Concrete values used to evaluate the definitions -/

/-- The literal `2.` (bits `0x4000000000000000`). -/
def Double.two : Double := ⟨⟨0x4000000000000000, by decide⟩⟩

/-- A stand-in for the math library that is exact at `1.`: `log 1 = 0`, `x / 1 = x`,
and a NaN elsewhere. -/
def toyOps : FloatOps :=
  { log := fun x => if x = Double.one then Double.zero else Double.NAN
    div := fun a b => if b = Double.one then a else Double.NAN }

/-- A bulk state at `T = 1`, `P = 1`, `rho = 1`, molar density `1`, counter `0`. -/
def bulkOne : ThermoPhase :=
  { temperature := Double.one
    pressure := Double.one
    density := Double.one
    molarDensity := Double.one
    stateMFNumber := 0
    getPartialMolarEnthalpies := fun _ => [Double.one] }

/-- A kinetics object with one reaction. -/
def kinOne : Kinetics :=
  { getReactionDelta := fun prop _ => prop
    getThirdBodyConcentrations := fun _ => [Double.two] }

/-- The bulk state `bulkOne` with its density doubled. -/
def bulkDense : ThermoPhase := { bulkOne with density := Double.two }

/-- The bulk state `bulkOne` with its molar density doubled. -/
def bulkMolarDense : ThermoPhase := { bulkOne with molarDensity := Double.two }

/-- The bulk state `bulkOne` at doubled temperature. -/
def bulkHot : ThermoPhase := { bulkOne with temperature := Double.two }

/-- The bulk state `bulkOne` at doubled pressure. -/
def bulkPressed : ThermoPhase := { bulkOne with pressure := Double.two }

/-- The bulk state `bulkOne` with a NaN for its temperature. -/
def bulkNaN : ThermoPhase := { bulkOne with temperature := Double.NAN }

/-- A `BlowersMaselData` record in step with `bulkOne`: the fresh record after one
full update. -/
def bmOne : BlowersMaselData := (BlowersMaselData.new.updateBulk toyOps bulkOne kinOne).data

/-- A `FalloffData` record in step with `bulkOne`. -/
def falloffOne : FalloffData :=
  { temperature := Double.one
    logT := Double.zero
    recipT := Double.one
    molar_density := Double.one
    state_mf_number := 0
    finalized := false
    conc_3b := [Double.two] }

/-- A `PlogData` record in step with `bulkOne`. -/
def plogOne : PlogData :=
  { temperature := Double.one, logT := Double.zero, recipT := Double.one,
    pressure := Double.one }

/-- A `ChebyshevData` record in step with `bulkOne`. -/
def chebyshevOne : ChebyshevData :=
  { temperature := Double.one, logT := Double.zero, recipT := Double.one,
    pressure := Double.one }

/-- An `ArrheniusData` record in step with `bulkOne`. -/
def arrheniusOne : ArrheniusData :=
  { temperature := Double.one, logT := Double.zero, recipT := Double.one }

/-- A `CustomFunc1Data` record in step with `bulkOne`. -/
def customOne : CustomFunc1Data :=
  { temperature := Double.one, logT := Double.zero, recipT := Double.one }

/-- The literal `-1.` (bits `0xBFF0000000000000`). -/
def Double.negOne : Double := ⟨⟨0xBFF0000000000000, by decide⟩⟩

/-- The value `-0.` (bits `0x8000000000000000`). -/
def Double.negZero : Double := ⟨⟨0x8000000000000000, by decide⟩⟩

/-- The bulk state `bulkOne` at temperature `0.`. -/
def bulkZero : ThermoPhase := { bulkOne with temperature := Double.zero }

/-- The bulk state `bulkOne` at temperature `-1.`. -/
def bulkNegative : ThermoPhase := { bulkOne with temperature := Double.negOne }

/-- The bulk state `bulkOne` at doubled temperature and doubled molar density. -/
def bulkHotMolarDense : ThermoPhase :=
  { bulkOne with temperature := Double.two, molarDensity := Double.two }

/-- The bulk state `bulkOne` with density `+0.`. -/
def bulkPosZeroDensity : ThermoPhase := { bulkOne with density := Double.zero }

/-- The bulk state `bulkOne` with density `-0.`. -/
def bulkNegZeroDensity : ThermoPhase := { bulkOne with density := Double.negZero }

/-- The bulk state `bulkOne` with a NaN for its density. -/
def bulkNaNDensity : ThermoPhase := { bulkOne with density := Double.NAN }

/-- A `BlowersMaselData` record in step with `bulkPosZeroDensity`: the fresh record
after one full update. -/
def bmPosZero : BlowersMaselData :=
  (BlowersMaselData.new.updateBulk toyOps bulkPosZeroDensity kinOne).data

/-! ## Helper lemmas -/

/-- A value differs from itself exactly when it is a NaN. -/
theorem Double.ne_self (a : Double) : a.ne a = a.isNaN := by
  simp [Double.ne]

/-- The branch of `BlowersMaselData::update(bulk, kin)` taken when something differs. -/
theorem blowersMasel_updateBulk_differs (ops : FloatOps) (d : BlowersMaselData)
    (bulk : ThermoPhase) (kin : Kinetics)
    (h : (bulk.temperature.ne d.temperature || bulk.density.ne d.density
      || bulk.stateMFNumber != d.state_mf_number) = true) :
    d.updateBulk ops bulk kin
      = ⟨(true, true),
         BlowersMaselData.update ops
           { d with density := bulk.density, state_mf_number := bulk.stateMFNumber,
                    m_grt := bulk.getPartialMolarEnthalpies d.m_grt,
                    dH := kin.getReactionDelta (bulk.getPartialMolarEnthalpies d.m_grt) d.dH }
           bulk.temperature,
         [Call.density, Call.stateMFNumber, Call.temperature, Call.getPartialMolarEnthalpies,
          Call.getReactionDelta, Call.updateT bulk.temperature]⟩ := by
  unfold BlowersMaselData.updateBulk
  exact if_pos h

/-- The branch of `BlowersMaselData::update(bulk, kin)` taken when nothing differs. -/
theorem blowersMasel_updateBulk_same (ops : FloatOps) (d : BlowersMaselData)
    (bulk : ThermoPhase) (kin : Kinetics)
    (h : (bulk.temperature.ne d.temperature || bulk.density.ne d.density
      || bulk.stateMFNumber != d.state_mf_number) = false) :
    d.updateBulk ops bulk kin
      = ⟨(false, false), d.update ops bulk.temperature,
         [Call.density, Call.stateMFNumber, Call.temperature,
          Call.updateT bulk.temperature]⟩ := by
  have hT : bulk.temperature.ne d.temperature = false := by
    simp only [Bool.or_eq_false_iff] at h
    exact h.1.1
  unfold BlowersMaselData.updateBulk
  rw [if_neg (by simp [h]), hT]

/-- The branch of `FalloffData::update(bulk, kin)` taken when something differs. -/
theorem falloff_updateBulk_differs (ops : FloatOps) (d : FalloffData)
    (bulk : ThermoPhase) (kin : Kinetics)
    (h : (bulk.molarDensity.ne d.molar_density
      || bulk.stateMFNumber != d.state_mf_number) = true) :
    d.updateBulk ops bulk kin
      = ⟨(true, true),
         FalloffData.update ops
           { d with molar_density := bulk.molarDensity, state_mf_number := bulk.stateMFNumber,
                    conc_3b := kin.getThirdBodyConcentrations d.conc_3b }
           bulk.temperature,
         [Call.molarDensity, Call.stateMFNumber, Call.temperature,
          Call.getThirdBodyConcentrations, Call.updateT bulk.temperature]⟩ := by
  unfold FalloffData.updateBulk
  exact if_pos h

/-- The branch of `FalloffData::update(bulk, kin)` taken when nothing differs. -/
theorem falloff_updateBulk_same (ops : FloatOps) (d : FalloffData)
    (bulk : ThermoPhase) (kin : Kinetics)
    (h : (bulk.molarDensity.ne d.molar_density
      || bulk.stateMFNumber != d.state_mf_number) = false) :
    d.updateBulk ops bulk kin
      = ⟨(false, bulk.temperature.ne d.temperature), d.update ops bulk.temperature,
         [Call.molarDensity, Call.stateMFNumber, Call.temperature,
          Call.updateT bulk.temperature]⟩ := by
  unfold FalloffData.updateBulk
  exact if_neg (by simp [h])

/-- A second full update of a `BlowersMaselData` record with the same bulk state,
none of whose temperature and density is a NaN, takes the cheap branch and leaves
the record as the first update left it. -/
theorem blowersMasel_updateBulk_twice (ops : FloatOps) (d : BlowersMaselData)
    (bulk : ThermoPhase) (kin : Kinetics)
    (hT : bulk.temperature.isNaN = false) (hrho : bulk.density.isNaN = false) :
    (d.updateBulk ops bulk kin).data.updateBulk ops bulk kin
      = ⟨(false, false), (d.updateBulk ops bulk kin).data,
         [Call.density, Call.stateMFNumber, Call.temperature,
          Call.updateT bulk.temperature]⟩ := by
  cases h : (bulk.temperature.ne d.temperature || bulk.density.ne d.density
      || bulk.stateMFNumber != d.state_mf_number)
  · rw [blowersMasel_updateBulk_same ops d bulk kin h]
    have h' := h
    simp only [Bool.or_eq_false_iff] at h'
    rw [blowersMasel_updateBulk_same ops _ bulk kin
      (by simp [BlowersMaselData.update, Double.ne_self, hT, h'.1.2, h'.2])]
    rfl
  · rw [blowersMasel_updateBulk_differs ops d bulk kin h]
    rw [blowersMasel_updateBulk_same ops _ bulk kin
      (by simp [BlowersMaselData.update, Double.ne_self, hT, hrho])]
    rfl

/-- A second full update of a `FalloffData` record with the same bulk state, none of
whose temperature and molar density is a NaN, takes the cheap branch and leaves the
record as the first update left it. -/
theorem falloff_updateBulk_twice (ops : FloatOps) (d : FalloffData)
    (bulk : ThermoPhase) (kin : Kinetics)
    (hT : bulk.temperature.isNaN = false) (hrho : bulk.molarDensity.isNaN = false) :
    (d.updateBulk ops bulk kin).data.updateBulk ops bulk kin
      = ⟨(false, false), (d.updateBulk ops bulk kin).data,
         [Call.molarDensity, Call.stateMFNumber, Call.temperature,
          Call.updateT bulk.temperature]⟩ := by
  cases h : (bulk.molarDensity.ne d.molar_density
      || bulk.stateMFNumber != d.state_mf_number)
  · rw [falloff_updateBulk_same ops d bulk kin h]
    have h' := h
    simp only [Bool.or_eq_false_iff] at h'
    rw [falloff_updateBulk_same ops _ bulk kin
      (by simp [FalloffData.update, h'.1, h'.2])]
    simp [FalloffData.update, Double.ne_self, hT]
  · rw [falloff_updateBulk_differs ops d bulk kin h]
    rw [falloff_updateBulk_same ops _ bulk kin
      (by simp [FalloffData.update, Double.ne_self, hrho])]
    simp [FalloffData.update, Double.ne_self, hT]

/-- Two doubles that do not differ under `!=` have the same bits or are both zeros. -/
theorem Double.eq_or_zeros_of_ne_false {a b : Double} (h : a.ne b = false) :
    a = b ∨ (a.isZero = true ∧ b.isZero = true) := by
  unfold Double.ne at h
  by_cases hz : (a.isZero && b.isZero) = true
  · right
    simpa using hz
  · left
    simp only [Bool.not_eq_true] at hz
    simp only [hz, Bool.not_false, Bool.true_and, Bool.or_eq_false_iff, bne_eq_false_iff_eq] at h
    cases a
    cases b
    simp_all

/-- Every double differs from the `NAN` the constructors store. -/
theorem Double.ne_NAN (a : Double) : a.ne Double.NAN = true := by
  have h : Double.NAN.isNaN = true := by decide
  simp [Double.ne, h]

/-! ## The claims -/

/-- C1: for every temperature `T` and every record, the temperature-only
`PlogData::update(T)` and `ChebyshevData::update(T)` deliver a "Missing state
information" `CanteraError`, never a normal return, and leave the record as it
was. -/
theorem C1_temperature_only_update_fails (T : Double) (p : PlogData) (c : ChebyshevData) :
    (p.update T).1 = Except.error ⟨"PlogData::update",
        "Missing state information: reaction type requires pressure."⟩
    ∧ (∀ u, (p.update T).1 ≠ Except.ok u)
    ∧ (p.update T).2 = p
    ∧ (c.update T).1 = Except.error ⟨"ChebyshevData::update",
        "Missing state information: reaction type requires pressure."⟩
    ∧ (∀ u, (c.update T).1 ≠ Except.ok u)
    ∧ (c.update T).2 = c := by
  refine ⟨rfl, ?_, rfl, rfl, ?_, rfl⟩
  · intro u h
    simp [PlogData.update] at h
  · intro u h
    simp [ChebyshevData.update] at h

/-- C2: the full update of a Plog or Chebyshev record returns
`slowChanged = (P != pressure)` and `fastChanged = (P != pressure) || (T != temperature)`,
compared with the values stored before the call; the one `update` it calls is the
`(T, P)` form, whose result is the record after the call; whenever the pressure
differs the pair is `(true, true)`, also when the temperature does not. -/
theorem C2_plog_chebyshev_full_update (ops : FloatOps) (p : PlogData) (c : ChebyshevData)
    (bulk : ThermoPhase) (kin : Kinetics) :
    ((p.updateBulk ops bulk kin).changed
        = (bulk.pressure.ne p.pressure,
           bulk.pressure.ne p.pressure || bulk.temperature.ne p.temperature)
      ∧ (p.updateBulk ops bulk kin).calls
        = [Call.temperature, Call.pressure, Call.updateTP bulk.temperature bulk.pressure]
      ∧ (p.updateBulk ops bulk kin).data = p.updateTP ops bulk.temperature bulk.pressure
      ∧ (bulk.pressure.ne p.pressure = true →
          (p.updateBulk ops bulk kin).changed = (true, true)))
    ∧ ((c.updateBulk ops bulk kin).changed
        = (bulk.pressure.ne c.pressure,
           bulk.pressure.ne c.pressure || bulk.temperature.ne c.temperature)
      ∧ (c.updateBulk ops bulk kin).calls
        = [Call.temperature, Call.pressure, Call.updateTP bulk.temperature bulk.pressure]
      ∧ (c.updateBulk ops bulk kin).data = c.updateTP ops bulk.temperature bulk.pressure
      ∧ (bulk.pressure.ne c.pressure = true →
          (c.updateBulk ops bulk kin).changed = (true, true))) := by
  refine ⟨⟨rfl, rfl, rfl, ?_⟩, ⟨rfl, rfl, rfl, ?_⟩⟩
  · intro h
    simp [PlogData.updateBulk, h]
  · intro h
    simp [ChebyshevData.updateBulk, h]

/-- C2, evaluated: records at `T = 1`, `P = 1` meet a bulk state at `T = 1`,
`P = 2`: only the pressure differs and the pair is `(true, true)`. -/
theorem C2_plog_chebyshev_witness :
    bulkPressed.temperature.ne plogOne.temperature = false
    ∧ (plogOne.updateBulk toyOps bulkPressed kinOne).changed = (true, true)
    ∧ (chebyshevOne.updateBulk toyOps bulkPressed kinOne).changed = (true, true)
    ∧ (plogOne.updateBulk toyOps bulkPressed kinOne).data.pressure = Double.two :=
  have h := C2_plog_chebyshev_full_update toyOps plogOne chebyshevOne bulkPressed kinOne
  ⟨by decide, h.1.2.2.2 (by decide), h.2.2.2.2 (by decide),
   by rw [h.1.2.2.1]; rfl⟩

/-- C3: `FalloffData::update(bulk, kin)` calls `kin.getThirdBodyConcentrations`
exactly when the bulk molar density differs from `molar_density` or the bulk
composition counter differs from `state_mf_number`; then `conc_3b` is overwritten
with what the call delivers. Otherwise `conc_3b`, `molar_density` and
`state_mf_number` keep their values and no member function of the kinetics object
is called, and a changed temperature gives `(false, true)`. -/
theorem C3_falloff_third_body_query (ops : FloatOps) (d : FalloffData) (bulk : ThermoPhase)
    (kin : Kinetics) :
    (Call.getThirdBodyConcentrations ∈ (d.updateBulk ops bulk kin).calls
        ↔ (bulk.molarDensity.ne d.molar_density
            || bulk.stateMFNumber != d.state_mf_number) = true)
    ∧ ((bulk.molarDensity.ne d.molar_density
            || bulk.stateMFNumber != d.state_mf_number) = true →
        (d.updateBulk ops bulk kin).data.conc_3b = kin.getThirdBodyConcentrations d.conc_3b)
    ∧ ((bulk.molarDensity.ne d.molar_density
            || bulk.stateMFNumber != d.state_mf_number) = false →
        (d.updateBulk ops bulk kin).data.conc_3b = d.conc_3b
        ∧ (d.updateBulk ops bulk kin).data.molar_density = d.molar_density
        ∧ (d.updateBulk ops bulk kin).data.state_mf_number = d.state_mf_number
        ∧ (∀ c ∈ (d.updateBulk ops bulk kin).calls, c.onKinetics = false)
        ∧ (bulk.temperature.ne d.temperature = true →
            (d.updateBulk ops bulk kin).changed = (false, true))) := by
  cases h : (bulk.molarDensity.ne d.molar_density || bulk.stateMFNumber != d.state_mf_number)
  · rw [falloff_updateBulk_same ops d bulk kin h]
    simp [FalloffData.update, Call.onKinetics]
  · rw [falloff_updateBulk_differs ops d bulk kin h]
    simp [FalloffData.update]

/-- C3, evaluated: a record in step with `bulkOne` meets a doubled molar density
(the third-body concentrations are fetched) and a doubled temperature (they are
not, and the pair is `(false, true)`). -/
theorem C3_falloff_witness :
    Call.getThirdBodyConcentrations ∈ (falloffOne.updateBulk toyOps bulkMolarDense kinOne).calls
    ∧ (falloffOne.updateBulk toyOps bulkHot kinOne).data.conc_3b = falloffOne.conc_3b
    ∧ (falloffOne.updateBulk toyOps bulkHot kinOne).changed = (false, true) :=
  ⟨(C3_falloff_third_body_query toyOps falloffOne bulkMolarDense kinOne).1.2 (by decide),
   ((C3_falloff_third_body_query toyOps falloffOne bulkHot kinOne).2.2 (by decide)).1,
   ((C3_falloff_third_body_query toyOps falloffOne bulkHot kinOne).2.2
      (by decide)).2.2.2.2 (by decide)⟩

/-- C4: `BlowersMaselData::update(bulk, kin)` recomputes `dH` (the kinetics object's
reaction delta of the bulk partial molar enthalpies) and returns `(true, true)`
exactly when the bulk temperature, density or composition counter differs from the
stored `temperature`, `density` or `state_mf_number`; when none differs it returns
`(false, false)` and `dH`, `density` and `state_mf_number` keep their values. -/
theorem C4_blowers_masel_recompute (ops : FloatOps) (d : BlowersMaselData)
    (bulk : ThermoPhase) (kin : Kinetics) :
    (Call.getReactionDelta ∈ (d.updateBulk ops bulk kin).calls
        ↔ (bulk.temperature.ne d.temperature || bulk.density.ne d.density
            || bulk.stateMFNumber != d.state_mf_number) = true)
    ∧ ((d.updateBulk ops bulk kin).changed = (true, true)
        ↔ (bulk.temperature.ne d.temperature || bulk.density.ne d.density
            || bulk.stateMFNumber != d.state_mf_number) = true)
    ∧ ((bulk.temperature.ne d.temperature || bulk.density.ne d.density
            || bulk.stateMFNumber != d.state_mf_number) = true →
        (d.updateBulk ops bulk kin).data.dH
          = kin.getReactionDelta (bulk.getPartialMolarEnthalpies d.m_grt) d.dH)
    ∧ ((bulk.temperature.ne d.temperature || bulk.density.ne d.density
            || bulk.stateMFNumber != d.state_mf_number) = false →
        (d.updateBulk ops bulk kin).changed = (false, false)
        ∧ (d.updateBulk ops bulk kin).data.dH = d.dH
        ∧ (d.updateBulk ops bulk kin).data.density = d.density
        ∧ (d.updateBulk ops bulk kin).data.state_mf_number = d.state_mf_number) := by
  cases h : (bulk.temperature.ne d.temperature || bulk.density.ne d.density
      || bulk.stateMFNumber != d.state_mf_number)
  · rw [blowersMasel_updateBulk_same ops d bulk kin h]
    simp [BlowersMaselData.update]
  · rw [blowersMasel_updateBulk_differs ops d bulk kin h]
    simp [BlowersMaselData.update]

/-- C4, evaluated: the fresh record meets `bulkOne` (recomputation, `dH` is the
reaction delta of the partial molar enthalpies), and the record in step with
`bulkOne` meets `bulkOne` again (no recomputation, `(false, false)`). -/
theorem C4_blowers_masel_witness :
    (BlowersMaselData.new.updateBulk toyOps bulkOne kinOne).changed = (true, true)
    ∧ (BlowersMaselData.new.updateBulk toyOps bulkOne kinOne).data.dH = [Double.one]
    ∧ (bmOne.updateBulk toyOps bulkOne kinOne).changed = (false, false)
    ∧ (bmOne.updateBulk toyOps bulkOne kinOne).data.dH = bmOne.dH :=
  ⟨(C4_blowers_masel_recompute toyOps BlowersMaselData.new bulkOne kinOne).2.1.2 (by decide),
   ((C4_blowers_masel_recompute toyOps BlowersMaselData.new bulkOne kinOne).2.2.1
      (by decide)).trans (by decide),
   ((C4_blowers_masel_recompute toyOps bmOne bulkOne kinOne).2.2.2 (by decide)).1,
   ((C4_blowers_masel_recompute toyOps bmOne bulkOne kinOne).2.2.2 (by decide)).2.1⟩

/-- C5 (as amended): for every record variant, every record state and every bulk
state `s` in which the floating-point values the variant compares (the temperature;
also the density for BlowersMasel, the molar density for Falloff, the pressure for
Plog and Chebyshev) are not NaNs, a second full update with the same `s` returns
`(false, false)` and leaves the record equal, field by field, to the record after
the first update. -/
theorem C5_idempotent_without_nan (ops : FloatOps) (bulk : ThermoPhase) (kin : Kinetics) :
    (∀ d : ArrheniusData, bulk.temperature.isNaN = false →
      ((d.updateBulk ops bulk kin).data.updateBulk ops bulk kin).changed = (false, false)
      ∧ ((d.updateBulk ops bulk kin).data.updateBulk ops bulk kin).data
          = (d.updateBulk ops bulk kin).data)
    ∧ (∀ d : BlowersMaselData, bulk.temperature.isNaN = false → bulk.density.isNaN = false →
      ((d.updateBulk ops bulk kin).data.updateBulk ops bulk kin).changed = (false, false)
      ∧ ((d.updateBulk ops bulk kin).data.updateBulk ops bulk kin).data
          = (d.updateBulk ops bulk kin).data)
    ∧ (∀ d : FalloffData, bulk.temperature.isNaN = false → bulk.molarDensity.isNaN = false →
      ((d.updateBulk ops bulk kin).data.updateBulk ops bulk kin).changed = (false, false)
      ∧ ((d.updateBulk ops bulk kin).data.updateBulk ops bulk kin).data
          = (d.updateBulk ops bulk kin).data)
    ∧ (∀ d : PlogData, bulk.temperature.isNaN = false → bulk.pressure.isNaN = false →
      ((d.updateBulk ops bulk kin).data.updateBulk ops bulk kin).changed = (false, false)
      ∧ ((d.updateBulk ops bulk kin).data.updateBulk ops bulk kin).data
          = (d.updateBulk ops bulk kin).data)
    ∧ (∀ d : ChebyshevData, bulk.temperature.isNaN = false → bulk.pressure.isNaN = false →
      ((d.updateBulk ops bulk kin).data.updateBulk ops bulk kin).changed = (false, false)
      ∧ ((d.updateBulk ops bulk kin).data.updateBulk ops bulk kin).data
          = (d.updateBulk ops bulk kin).data)
    ∧ (∀ d : CustomFunc1Data, bulk.temperature.isNaN = false →
      ((d.updateBulk bulk kin).data.updateBulk bulk kin).changed = (false, false)
      ∧ ((d.updateBulk bulk kin).data.updateBulk bulk kin).data
          = (d.updateBulk bulk kin).data) := by
  refine ⟨?_, ?_, ?_, ?_, ?_, ?_⟩
  · intro d hT
    simp [ArrheniusData.updateBulk, ArrheniusData.update, Double.ne_self, hT]
  · intro d hT hrho
    rw [blowersMasel_updateBulk_twice ops d bulk kin hT hrho]
    exact ⟨rfl, rfl⟩
  · intro d hT hrho
    rw [falloff_updateBulk_twice ops d bulk kin hT hrho]
    exact ⟨rfl, rfl⟩
  · intro d hT hP
    simp [PlogData.updateBulk, PlogData.updateTP, Double.ne_self, hT, hP]
  · intro d hT hP
    simp [ChebyshevData.updateBulk, ChebyshevData.updateTP, Double.ne_self, hT, hP]
  · intro d hT
    simp [CustomFunc1Data.updateBulk, Double.ne_self, hT]

/-- C5, evaluated: each of the six records, updated twice with `bulkOne`. -/
theorem C5_idempotent_witness :
    ((arrheniusOne.updateBulk toyOps bulkOne kinOne).data.updateBulk toyOps bulkOne kinOne).changed
        = (false, false)
    ∧ ((BlowersMaselData.new.updateBulk toyOps bulkOne kinOne).data.updateBulk
          toyOps bulkOne kinOne).changed = (false, false)
    ∧ ((BlowersMaselData.new.updateBulk toyOps bulkOne kinOne).data.updateBulk
          toyOps bulkOne kinOne).data = bmOne
    ∧ ((falloffOne.updateBulk toyOps bulkDense kinOne).data.updateBulk
          toyOps bulkDense kinOne).changed = (false, false) :=
  have h := C5_idempotent_without_nan toyOps bulkOne kinOne
  have h' := C5_idempotent_without_nan toyOps bulkDense kinOne
  ⟨(h.1 arrheniusOne (by decide)).1,
   (h.2.1 BlowersMaselData.new (by decide) (by decide)).1,
   (h.2.1 BlowersMaselData.new (by decide) (by decide)).2,
   (h'.2.2.1 falloffOne (by decide) (by decide)).1⟩

/-- C5 fails as stated: with a bulk state whose temperature is a NaN, the second of
two full updates with that same state does not return `(false, false)`: a
`BlowersMaselData` record returns `(true, true)`, a `CustomFunc1Data` record
`(false, true)`. -/
theorem C5_counterexample_nan_temperature :
    ((BlowersMaselData.new.updateBulk toyOps bulkNaN kinOne).data.updateBulk
        toyOps bulkNaN kinOne).changed = (true, true)
    ∧ ((customOne.updateBulk bulkNaN kinOne).data.updateBulk bulkNaN kinOne).changed
        = (false, true)
    ∧ ¬ (((BlowersMaselData.new.updateBulk toyOps bulkNaN kinOne).data.updateBulk
        toyOps bulkNaN kinOne).changed = (false, false)) := by
  decide

/-- C6: `ArrheniusData::update(bulk, kin)` returns `slowChanged = false` and
`fastChanged = (T != temperature)` for the temperature stored before the call; the
record after it is the record after `update(T)`; a bulk state with the same
temperature and any kinetics object give the same outcome. -/
theorem C6_arrhenius_full_update (ops : FloatOps) (d : ArrheniusData) (bulk : ThermoPhase)
    (kin : Kinetics) :
    (d.updateBulk ops bulk kin).changed = (false, bulk.temperature.ne d.temperature)
    ∧ (d.updateBulk ops bulk kin).data = d.update ops bulk.temperature
    ∧ (∀ (bulk2 : ThermoPhase) (kin2 : Kinetics), bulk2.temperature = bulk.temperature →
        d.updateBulk ops bulk2 kin2 = d.updateBulk ops bulk kin) := by
  refine ⟨rfl, rfl, ?_⟩
  intro bulk2 kin2 h
  simp [ArrheniusData.updateBulk, h]

/-- C6, evaluated: a record at `T = 1` meets a bulk state at `T = 2`; doubling the
pressure instead changes nothing. -/
theorem C6_arrhenius_witness :
    (arrheniusOne.updateBulk toyOps bulkHot kinOne).changed = (false, true)
    ∧ (arrheniusOne.updateBulk toyOps bulkHot kinOne).data.temperature = Double.two
    ∧ arrheniusOne.updateBulk toyOps bulkPressed kinOne
        = arrheniusOne.updateBulk toyOps bulkOne kinOne :=
  ⟨(C6_arrhenius_full_update toyOps arrheniusOne bulkHot kinOne).1.trans (by decide),
   by rw [(C6_arrhenius_full_update toyOps arrheniusOne bulkHot kinOne).2.1]; rfl,
   (C6_arrhenius_full_update toyOps arrheniusOne bulkOne kinOne).2.2 bulkPressed kinOne rfl⟩

/-- C7: `CustomFunc1Data::update(bulk, kin)` returns `slowChanged = false` and
`fastChanged = (T != temperature)` for the temperature stored before the call;
afterwards `temperature` is `T`; a bulk state with the same temperature and any
kinetics object give the same outcome. -/
theorem C7_custom_func1_full_update (d : CustomFunc1Data) (bulk : ThermoPhase)
    (kin : Kinetics) :
    (d.updateBulk bulk kin).changed = (false, bulk.temperature.ne d.temperature)
    ∧ (d.updateBulk bulk kin).data.temperature = bulk.temperature
    ∧ (∀ (bulk2 : ThermoPhase) (kin2 : Kinetics), bulk2.temperature = bulk.temperature →
        d.updateBulk bulk2 kin2 = d.updateBulk bulk kin) := by
  refine ⟨rfl, rfl, ?_⟩
  intro bulk2 kin2 h
  simp [CustomFunc1Data.updateBulk, h]

/-- C7, evaluated: a record at `T = 1` meets a bulk state at `T = 2`; doubling the
density instead changes nothing. -/
theorem C7_custom_func1_witness :
    (customOne.updateBulk bulkHot kinOne).changed = (false, true)
    ∧ (customOne.updateBulk bulkHot kinOne).data.temperature = Double.two
    ∧ customOne.updateBulk bulkDense kinOne = customOne.updateBulk bulkOne kinOne :=
  ⟨(C7_custom_func1_full_update customOne bulkHot kinOne).1.trans (by decide),
   (C7_custom_func1_full_update customOne bulkHot kinOne).2.1,
   (C7_custom_func1_full_update customOne bulkOne kinOne).2.2 bulkDense kinOne rfl⟩

/-- C8 (as amended): `fastChanged` is true exactly when the bulk temperature differs
from the stored temperature or the variant's other compared quantity differs: the
density or composition counter for BlowersMasel, the molar density or composition
counter for Falloff, the pressure for Plog and Chebyshev, nothing more for
Arrhenius and CustomFunc1. -/
theorem C8_fast_changed (ops : FloatOps) (bulk : ThermoPhase) (kin : Kinetics) :
    (∀ d : ArrheniusData,
      (d.updateBulk ops bulk kin).changed.2 = bulk.temperature.ne d.temperature)
    ∧ (∀ d : BlowersMaselData,
      (d.updateBulk ops bulk kin).changed.2
        = (bulk.temperature.ne d.temperature || bulk.density.ne d.density
            || bulk.stateMFNumber != d.state_mf_number))
    ∧ (∀ d : FalloffData,
      (d.updateBulk ops bulk kin).changed.2
        = (bulk.temperature.ne d.temperature || (bulk.molarDensity.ne d.molar_density
            || bulk.stateMFNumber != d.state_mf_number)))
    ∧ (∀ d : PlogData,
      (d.updateBulk ops bulk kin).changed.2
        = (bulk.temperature.ne d.temperature || bulk.pressure.ne d.pressure))
    ∧ (∀ d : ChebyshevData,
      (d.updateBulk ops bulk kin).changed.2
        = (bulk.temperature.ne d.temperature || bulk.pressure.ne d.pressure))
    ∧ (∀ d : CustomFunc1Data,
      (d.updateBulk bulk kin).changed.2 = bulk.temperature.ne d.temperature) := by
  refine ⟨fun _ => rfl, ?_, ?_, ?_, ?_, fun _ => rfl⟩
  · intro d
    cases h : (bulk.temperature.ne d.temperature || bulk.density.ne d.density
        || bulk.stateMFNumber != d.state_mf_number)
    · rw [blowersMasel_updateBulk_same ops d bulk kin h]
    · rw [blowersMasel_updateBulk_differs ops d bulk kin h]
  · intro d
    cases h : (bulk.molarDensity.ne d.molar_density
        || bulk.stateMFNumber != d.state_mf_number)
    · rw [falloff_updateBulk_same ops d bulk kin h]
      simp
    · rw [falloff_updateBulk_differs ops d bulk kin h]
      simp
  · intro d
    exact Bool.or_comm _ _
  · intro d
    exact Bool.or_comm _ _

/-- C8 fails as stated: the bulk temperature equals the stored temperature, and
`fastChanged` is true all the same, because the density (BlowersMasel), the molar
density (Falloff) or the pressure (Plog) differs. -/
theorem C8_counterexample_fast_without_temperature :
    bulkDense.temperature.ne bmOne.temperature = false
    ∧ (bmOne.updateBulk toyOps bulkDense kinOne).changed.2 = true
    ∧ bulkMolarDense.temperature.ne falloffOne.temperature = false
    ∧ (falloffOne.updateBulk toyOps bulkMolarDense kinOne).changed.2 = true
    ∧ bulkPressed.temperature.ne plogOne.temperature = false
    ∧ (plogOne.updateBulk toyOps bulkPressed kinOne).changed.2 = true := by
  decide

/-- C9 (as amended): `slowChanged` is true exactly when the temperature, the density
or the composition counter differs for BlowersMasel; when the molar density or the
composition counter differs for Falloff; when the pressure differs for Plog and
Chebyshev; never for Arrhenius and CustomFunc1. -/
theorem C9_slow_changed (ops : FloatOps) (bulk : ThermoPhase) (kin : Kinetics) :
    (∀ d : ArrheniusData, (d.updateBulk ops bulk kin).changed.1 = false)
    ∧ (∀ d : BlowersMaselData,
      (d.updateBulk ops bulk kin).changed.1
        = (bulk.temperature.ne d.temperature || bulk.density.ne d.density
            || bulk.stateMFNumber != d.state_mf_number))
    ∧ (∀ d : FalloffData,
      (d.updateBulk ops bulk kin).changed.1
        = (bulk.molarDensity.ne d.molar_density
            || bulk.stateMFNumber != d.state_mf_number))
    ∧ (∀ d : PlogData,
      (d.updateBulk ops bulk kin).changed.1 = bulk.pressure.ne d.pressure)
    ∧ (∀ d : ChebyshevData,
      (d.updateBulk ops bulk kin).changed.1 = bulk.pressure.ne d.pressure)
    ∧ (∀ d : CustomFunc1Data, (d.updateBulk bulk kin).changed.1 = false) := by
  refine ⟨fun _ => rfl, ?_, ?_, fun _ => rfl, fun _ => rfl, fun _ => rfl⟩
  · intro d
    cases h : (bulk.temperature.ne d.temperature || bulk.density.ne d.density
        || bulk.stateMFNumber != d.state_mf_number)
    · rw [blowersMasel_updateBulk_same ops d bulk kin h]
    · rw [blowersMasel_updateBulk_differs ops d bulk kin h]
  · intro d
    cases h : (bulk.molarDensity.ne d.molar_density
        || bulk.stateMFNumber != d.state_mf_number)
    · rw [falloff_updateBulk_same ops d bulk kin h]
    · rw [falloff_updateBulk_differs ops d bulk kin h]

/-- C9 fails as stated: for a `BlowersMaselData` record the bulk density and
composition counter equal the stored ones, the temperature alone differs, and
`slowChanged` is true. -/
theorem C9_counterexample_blowers_masel_temperature_alone :
    bulkHot.density.ne bmOne.density = false
    ∧ (bulkHot.stateMFNumber != bmOne.state_mf_number) = false
    ∧ bulkHot.temperature.ne bmOne.temperature = true
    ∧ (bmOne.updateBulk toyOps bulkHot kinOne).changed.1 = true := by
  decide

/-- C10: with a math library that is exact at one (`log 1 = 0`, `1 / 1 = 1`), the
fresh `BlowersMaselData` record has `temperature = 1`, `logT = 0 = log temperature`
and `recipT = 1 = 1 / temperature`; after `update(T)` and after the full
`update(bulk, kin)`, on either branch, `temperature = T`, `logT = log T` and
`recipT = 1 / T` for the `T` passed in or read from the bulk state. -/
theorem C10_blowers_masel_temperature_terms (ops : FloatOps)
    (hlog : ops.log Double.one = Double.zero)
    (hdiv : ops.div Double.one Double.one = Double.one) :
    (BlowersMaselData.new.temperature = Double.one
      ∧ BlowersMaselData.new.logT = Double.zero
      ∧ BlowersMaselData.new.recipT = Double.one
      ∧ BlowersMaselData.new.logT = ops.log BlowersMaselData.new.temperature
      ∧ BlowersMaselData.new.recipT = ops.div Double.one BlowersMaselData.new.temperature)
    ∧ (∀ (d : BlowersMaselData) (T : Double),
        (d.update ops T).temperature = T
        ∧ (d.update ops T).logT = ops.log T
        ∧ (d.update ops T).recipT = ops.div Double.one T)
    ∧ (∀ (d : BlowersMaselData) (bulk : ThermoPhase) (kin : Kinetics),
        (d.updateBulk ops bulk kin).data.temperature = bulk.temperature
        ∧ (d.updateBulk ops bulk kin).data.logT = ops.log bulk.temperature
        ∧ (d.updateBulk ops bulk kin).data.recipT = ops.div Double.one bulk.temperature) := by
  refine ⟨⟨rfl, rfl, rfl, hlog.symm, hdiv.symm⟩, fun _ _ => ⟨rfl, rfl, rfl⟩, ?_⟩
  intro d bulk kin
  cases h : (bulk.temperature.ne d.temperature || bulk.density.ne d.density
      || bulk.stateMFNumber != d.state_mf_number)
  · rw [blowersMasel_updateBulk_same ops d bulk kin h]
    exact ⟨rfl, rfl, rfl⟩
  · rw [blowersMasel_updateBulk_differs ops d bulk kin h]
    exact ⟨rfl, rfl, rfl⟩

/-- C10, evaluated with `toyOps`: the fresh record, and the record after a full
update at `T = 1` on the recomputing branch and again on the cheap branch. -/
theorem C10_blowers_masel_witness :
    BlowersMaselData.new.logT = toyOps.log BlowersMaselData.new.temperature
    ∧ (BlowersMaselData.new.updateBulk toyOps bulkOne kinOne).data.logT = Double.zero
    ∧ (bmOne.updateBulk toyOps bulkOne kinOne).data.recipT = Double.one :=
  have h := C10_blowers_masel_temperature_terms toyOps (by decide) (by decide)
  ⟨h.1.2.2.2.1,
   (h.2.2 BlowersMaselData.new bulkOne kinOne).2.1.trans (by decide),
   (h.2.2 bmOne bulkOne kinOne).2.2.trans (by decide)⟩

/-- C11 (as amended): for every temperature `T <= 0`, `BlowersMaselData::update(T)`
and the full update of a bulk state at temperature `T` raise nothing: they return
with `temperature = T`, `logT = log T` and `recipT = 1 / T` stored as the
floating-point operations deliver them, and the rest of the record is what the
update makes of it for any other temperature. -/
theorem C11_nonpositive_temperature_is_stored (ops : FloatOps) (T : Double)
    (_hT : T.leZero = true) :
    (∀ d : BlowersMaselData,
      d.update ops T = { d with temperature := T, logT := ops.log T,
                                recipT := ops.div Double.one T })
    ∧ (∀ (d : BlowersMaselData) (bulk : ThermoPhase) (kin : Kinetics),
        bulk.temperature = T →
        (d.updateBulk ops bulk kin).data.temperature = T
        ∧ (d.updateBulk ops bulk kin).data.logT = ops.log T
        ∧ (d.updateBulk ops bulk kin).data.recipT = ops.div Double.one T
        ∧ (d.updateBulk ops bulk kin).changed.2
            = (T.ne d.temperature || bulk.density.ne d.density
                || bulk.stateMFNumber != d.state_mf_number)) := by
  refine ⟨fun _ => rfl, ?_⟩
  intro d bulk kin hb
  subst hb
  cases h : (bulk.temperature.ne d.temperature || bulk.density.ne d.density
      || bulk.stateMFNumber != d.state_mf_number)
  · rw [blowersMasel_updateBulk_same ops d bulk kin h]
    exact ⟨rfl, rfl, rfl, rfl⟩
  · rw [blowersMasel_updateBulk_differs ops d bulk kin h]
    exact ⟨rfl, rfl, rfl, rfl⟩

/-- C11, evaluated at `T = -1.`: the record in step with `bulkOne` stores `-1.`. -/
theorem C11_nonpositive_temperature_witness :
    Double.negOne.leZero = true
    ∧ (bmOne.update toyOps Double.negOne).temperature = Double.negOne
    ∧ (bmOne.updateBulk toyOps bulkNegative kinOne).data.temperature = Double.negOne
    ∧ (bmOne.updateBulk toyOps bulkNegative kinOne).changed.2 = true :=
  have h := C11_nonpositive_temperature_is_stored toyOps Double.negOne (by decide)
  ⟨by decide,
   by rw [h.1 bmOne],
   (h.2 bmOne bulkNegative kinOne rfl).1,
   (h.2 bmOne bulkNegative kinOne rfl).2.2.2.trans (by decide)⟩

/-- C11 fails as stated: at `T = 0.` and at `T = -1.` (both `<= 0`) the update returns
a record, with `T` stored as its temperature and `log T`, `1 / T` as its terms; the
full update returns its pair `(true, true)` as for any other changed temperature. -/
theorem C11_counterexample_nonpositive_temperature :
    Double.zero.leZero = true
    ∧ (bmOne.update toyOps Double.zero).temperature = Double.zero
    ∧ (bmOne.update toyOps Double.zero).logT = toyOps.log Double.zero
    ∧ (bmOne.update toyOps Double.zero).recipT = toyOps.div Double.one Double.zero
    ∧ Double.negOne.leZero = true
    ∧ (bmOne.updateBulk toyOps bulkNegative kinOne).changed = (true, true)
    ∧ (bmOne.updateBulk toyOps bulkNegative kinOne).data.temperature = Double.negOne
    ∧ (bmOne.updateBulk toyOps bulkNegative kinOne).data.logT = toyOps.log Double.negOne
    ∧ (bmOne.updateBulk toyOps bulkZero kinOne).data.temperature = Double.zero := by
  decide

/-- C13 (as amended): in a full update of a BlowersMasel or Falloff record that
recomputes `dH`, respectively `conc_3b`, the recomputation comes first and
`update(T)` is the last call; at the recomputation the record still has the
temperature terms it had before the call; the recomputed quantity is made from the
bulk state, the kinetics object and the record's buffers; the record after the call
is the recomputed record with `update(T)` applied. -/
theorem C13_recompute_then_refresh (ops : FloatOps) (bulk : ThermoPhase) (kin : Kinetics) :
    (∀ d : BlowersMaselData,
      (bulk.temperature.ne d.temperature || bulk.density.ne d.density
        || bulk.stateMFNumber != d.state_mf_number) = true →
      (d.updateBulk ops bulk kin).calls
          = [Call.density, Call.stateMFNumber, Call.temperature,
             Call.getPartialMolarEnthalpies, Call.getReactionDelta,
             Call.updateT bulk.temperature]
      ∧ (d.atRecompute bulk).temperature = d.temperature
      ∧ (d.atRecompute bulk).logT = d.logT
      ∧ (d.atRecompute bulk).recipT = d.recipT
      ∧ (d.updateBulk ops bulk kin).data
          = BlowersMaselData.update ops
              { d.atRecompute bulk with
                dH := kin.getReactionDelta (d.atRecompute bulk).m_grt (d.atRecompute bulk).dH }
              bulk.temperature)
    ∧ (∀ d : FalloffData,
      (bulk.molarDensity.ne d.molar_density
        || bulk.stateMFNumber != d.state_mf_number) = true →
      (d.updateBulk ops bulk kin).calls
          = [Call.molarDensity, Call.stateMFNumber, Call.temperature,
             Call.getThirdBodyConcentrations, Call.updateT bulk.temperature]
      ∧ (d.atRecompute bulk).temperature = d.temperature
      ∧ (d.atRecompute bulk).logT = d.logT
      ∧ (d.atRecompute bulk).recipT = d.recipT
      ∧ (d.updateBulk ops bulk kin).data
          = FalloffData.update ops
              { d.atRecompute bulk with
                conc_3b := kin.getThirdBodyConcentrations (d.atRecompute bulk).conc_3b }
              bulk.temperature) := by
  constructor
  · intro d h
    rw [blowersMasel_updateBulk_differs ops d bulk kin h]
    exact ⟨rfl, rfl, rfl, rfl, rfl⟩
  · intro d h
    rw [falloff_updateBulk_differs ops d bulk kin h]
    exact ⟨rfl, rfl, rfl, rfl, rfl⟩

/-- C13, evaluated: records in step with `bulkOne` meet a bulk state at `T = 2`
(with a doubled molar density for the Falloff record). -/
theorem C13_recompute_then_refresh_witness :
    (bmOne.updateBulk toyOps bulkHot kinOne).calls
        = [Call.density, Call.stateMFNumber, Call.temperature,
           Call.getPartialMolarEnthalpies, Call.getReactionDelta,
           Call.updateT Double.two]
    ∧ (falloffOne.updateBulk toyOps bulkHotMolarDense kinOne).calls
        = [Call.molarDensity, Call.stateMFNumber, Call.temperature,
           Call.getThirdBodyConcentrations, Call.updateT Double.two]
    ∧ (falloffOne.atRecompute bulkHotMolarDense).logT = falloffOne.logT :=
  have h := C13_recompute_then_refresh toyOps bulkHot kinOne
  have h' := C13_recompute_then_refresh toyOps bulkHotMolarDense kinOne
  ⟨(h.1 bmOne (by decide)).1,
   (h'.2 falloffOne (by decide)).1,
   (h'.2 falloffOne (by decide)).2.2.1⟩

/-- C13 fails as stated: `dH` (BlowersMasel) and `conc_3b` (Falloff) are recomputed,
and at that point the record's temperature is still `1` while the bulk temperature
is `2`; in the call trace the recomputation stands before `update(T)`. -/
theorem C13_counterexample_refresh_after_recompute :
    Call.getReactionDelta ∈ (bmOne.updateBulk toyOps bulkHot kinOne).calls
    ∧ (bmOne.atRecompute bulkHot).temperature = Double.one
    ∧ bulkHot.temperature = Double.two
    ∧ bulkHot.temperature.ne (bmOne.atRecompute bulkHot).temperature = true
    ∧ List.indexOf Call.getReactionDelta (bmOne.updateBulk toyOps bulkHot kinOne).calls
        < List.indexOf (Call.updateT Double.two) (bmOne.updateBulk toyOps bulkHot kinOne).calls
    ∧ Call.getThirdBodyConcentrations
        ∈ (falloffOne.updateBulk toyOps bulkHotMolarDense kinOne).calls
    ∧ bulkHotMolarDense.temperature.ne (falloffOne.atRecompute bulkHotMolarDense).temperature
        = true
    ∧ List.indexOf Call.getThirdBodyConcentrations
          (falloffOne.updateBulk toyOps bulkHotMolarDense kinOne).calls
        < List.indexOf (Call.updateT Double.two)
          (falloffOne.updateBulk toyOps bulkHotMolarDense kinOne).calls := by
  decide

/-- C14: for every record variant, record state and bulk state, the pair returned by
the full update has `fastChanged` true whenever `slowChanged` is true: it is never
`(true, false)`. -/
theorem C14_slow_implies_fast (ops : FloatOps) (bulk : ThermoPhase) (kin : Kinetics) :
    (∀ d : ArrheniusData,
      ((d.updateBulk ops bulk kin).changed.1 = true → (d.updateBulk ops bulk kin).changed.2 = true)
      ∧ (d.updateBulk ops bulk kin).changed ≠ (true, false))
    ∧ (∀ d : BlowersMaselData,
      ((d.updateBulk ops bulk kin).changed.1 = true → (d.updateBulk ops bulk kin).changed.2 = true)
      ∧ (d.updateBulk ops bulk kin).changed ≠ (true, false))
    ∧ (∀ d : FalloffData,
      ((d.updateBulk ops bulk kin).changed.1 = true → (d.updateBulk ops bulk kin).changed.2 = true)
      ∧ (d.updateBulk ops bulk kin).changed ≠ (true, false))
    ∧ (∀ d : PlogData,
      ((d.updateBulk ops bulk kin).changed.1 = true → (d.updateBulk ops bulk kin).changed.2 = true)
      ∧ (d.updateBulk ops bulk kin).changed ≠ (true, false))
    ∧ (∀ d : ChebyshevData,
      ((d.updateBulk ops bulk kin).changed.1 = true → (d.updateBulk ops bulk kin).changed.2 = true)
      ∧ (d.updateBulk ops bulk kin).changed ≠ (true, false))
    ∧ (∀ d : CustomFunc1Data,
      ((d.updateBulk bulk kin).changed.1 = true → (d.updateBulk bulk kin).changed.2 = true)
      ∧ (d.updateBulk bulk kin).changed ≠ (true, false)) := by
  refine ⟨?_, ?_, ?_, ?_, ?_, ?_⟩
  · intro d
    simp [ArrheniusData.updateBulk]
  · intro d
    cases h : (bulk.temperature.ne d.temperature || bulk.density.ne d.density
        || bulk.stateMFNumber != d.state_mf_number)
    · rw [blowersMasel_updateBulk_same ops d bulk kin h]
      simp
    · rw [blowersMasel_updateBulk_differs ops d bulk kin h]
      simp
  · intro d
    cases h : (bulk.molarDensity.ne d.molar_density
        || bulk.stateMFNumber != d.state_mf_number)
    · rw [falloff_updateBulk_same ops d bulk kin h]
      simp
    · rw [falloff_updateBulk_differs ops d bulk kin h]
      simp
  · intro d
    cases hP : bulk.pressure.ne d.pressure <;> simp [PlogData.updateBulk, hP]
  · intro d
    cases hP : bulk.pressure.ne d.pressure <;> simp [ChebyshevData.updateBulk, hP]
  · intro d
    simp [CustomFunc1Data.updateBulk]

/-- C14, evaluated: the updates that return `slowChanged = true` for a doubled
density, molar density and pressure return `fastChanged = true` with it. -/
theorem C14_slow_implies_fast_witness :
    (bmOne.updateBulk toyOps bulkDense kinOne).changed.2 = true
    ∧ (falloffOne.updateBulk toyOps bulkMolarDense kinOne).changed.2 = true
    ∧ (plogOne.updateBulk toyOps bulkPressed kinOne).changed.2 = true
    ∧ (chebyshevOne.updateBulk toyOps bulkPressed kinOne).changed.2 = true :=
  ⟨((C14_slow_implies_fast toyOps bulkDense kinOne).2.1 bmOne).1 (by decide),
   ((C14_slow_implies_fast toyOps bulkMolarDense kinOne).2.2.1 falloffOne).1 (by decide),
   ((C14_slow_implies_fast toyOps bulkPressed kinOne).2.2.2.1 plogOne).1 (by decide),
   ((C14_slow_implies_fast toyOps bulkPressed kinOne).2.2.2.2.1 chebyshevOne).1 (by decide)⟩

/-- C15 (as amended): after every full update, on either branch, the stored
temperature (BlowersMasel, Falloff, CustomFunc1) and composition counter
(BlowersMasel, Falloff) are the bulk state's; the stored density (BlowersMasel) and
molar density (Falloff) are the bulk state's bit for bit on the recomputing branch,
and on the other branch they are the bulk state's bit for bit or both are zeros. -/
theorem C15_fingerprint_in_step (ops : FloatOps) (bulk : ThermoPhase) (kin : Kinetics) :
    (∀ d : BlowersMaselData,
      (d.updateBulk ops bulk kin).data.temperature = bulk.temperature
      ∧ (d.updateBulk ops bulk kin).data.state_mf_number = bulk.stateMFNumber
      ∧ ((d.updateBulk ops bulk kin).data.density = bulk.density
          ∨ ((d.updateBulk ops bulk kin).data.density.isZero = true
              ∧ bulk.density.isZero = true))
      ∧ ((bulk.temperature.ne d.temperature || bulk.density.ne d.density
            || bulk.stateMFNumber != d.state_mf_number) = true →
          (d.updateBulk ops bulk kin).data.density = bulk.density))
    ∧ (∀ d : FalloffData,
      (d.updateBulk ops bulk kin).data.temperature = bulk.temperature
      ∧ (d.updateBulk ops bulk kin).data.state_mf_number = bulk.stateMFNumber
      ∧ ((d.updateBulk ops bulk kin).data.molar_density = bulk.molarDensity
          ∨ ((d.updateBulk ops bulk kin).data.molar_density.isZero = true
              ∧ bulk.molarDensity.isZero = true))
      ∧ ((bulk.molarDensity.ne d.molar_density
            || bulk.stateMFNumber != d.state_mf_number) = true →
          (d.updateBulk ops bulk kin).data.molar_density = bulk.molarDensity))
    ∧ (∀ d : CustomFunc1Data,
      (d.updateBulk bulk kin).data.temperature = bulk.temperature) := by
  refine ⟨?_, ?_, fun _ => rfl⟩
  · intro d
    cases h : (bulk.temperature.ne d.temperature || bulk.density.ne d.density
        || bulk.stateMFNumber != d.state_mf_number)
    · rw [blowersMasel_updateBulk_same ops d bulk kin h]
      simp only [Bool.or_eq_false_iff, bne_eq_false_iff_eq] at h
      refine ⟨rfl, h.2.symm, ?_, by simp⟩
      rcases Double.eq_or_zeros_of_ne_false h.1.2 with e | ⟨z1, z2⟩
      · exact Or.inl e.symm
      · exact Or.inr ⟨z2, z1⟩
    · rw [blowersMasel_updateBulk_differs ops d bulk kin h]
      exact ⟨rfl, rfl, Or.inl rfl, fun _ => rfl⟩
  · intro d
    cases h : (bulk.molarDensity.ne d.molar_density
        || bulk.stateMFNumber != d.state_mf_number)
    · rw [falloff_updateBulk_same ops d bulk kin h]
      simp only [Bool.or_eq_false_iff, bne_eq_false_iff_eq] at h
      refine ⟨rfl, h.2.symm, ?_, by simp⟩
      rcases Double.eq_or_zeros_of_ne_false h.1 with e | ⟨z1, z2⟩
      · exact Or.inl e.symm
      · exact Or.inr ⟨z2, z1⟩
    · rw [falloff_updateBulk_differs ops d bulk kin h]
      exact ⟨rfl, rfl, Or.inl rfl, fun _ => rfl⟩

/-- C15, evaluated: the fresh BlowersMasel record after a full update with
`bulkDense`, and the Falloff record after one with `bulkMolarDense`. -/
theorem C15_fingerprint_witness :
    (BlowersMaselData.new.updateBulk toyOps bulkDense kinOne).data.density = Double.two
    ∧ (BlowersMaselData.new.updateBulk toyOps bulkDense kinOne).data.state_mf_number = 0
    ∧ (falloffOne.updateBulk toyOps bulkMolarDense kinOne).data.molar_density = Double.two :=
  ⟨((C15_fingerprint_in_step toyOps bulkDense kinOne).1 BlowersMaselData.new).2.2.2
      (by decide),
   ((C15_fingerprint_in_step toyOps bulkDense kinOne).1 BlowersMaselData.new).2.1,
   ((C15_fingerprint_in_step toyOps bulkMolarDense kinOne).2.1 falloffOne).2.2.2
      (by decide)⟩

/-- C15 fails as stated, whichever equality is meant. Bit for bit: a record holding
density `+0.` meets a bulk density `-0.`, no recomputation, and the stored density
stays `+0.`. Under `==`: a record meets a NaN bulk density, the NaN is stored, and
the stored density differs from the bulk density under `!=`. -/
theorem C15_counterexample_zero_sign_and_nan :
    (bmPosZero.updateBulk toyOps bulkNegZeroDensity kinOne).changed = (false, false)
    ∧ (bmPosZero.updateBulk toyOps bulkNegZeroDensity kinOne).data.density = Double.zero
    ∧ bulkNegZeroDensity.density = Double.negZero
    ∧ (bmPosZero.updateBulk toyOps bulkNegZeroDensity kinOne).data.density
        ≠ bulkNegZeroDensity.density
    ∧ bulkNaNDensity.density.ne (bmOne.updateBulk toyOps bulkNaNDensity kinOne).data.density
        = true := by
  decide

/-- C16: the first full update of a freshly constructed `BlowersMaselData` takes the
recomputation branch for every bulk state: the bulk density differs from the initial
`NAN`, `dH` is the reaction delta of the bulk partial molar enthalpies, and the pair
is `(true, true)`. -/
theorem C16_fresh_blowers_masel_first_update (ops : FloatOps) (bulk : ThermoPhase)
    (kin : Kinetics) :
    bulk.density.ne BlowersMaselData.new.density = true
    ∧ (BlowersMaselData.new.updateBulk ops bulk kin).changed = (true, true)
    ∧ (BlowersMaselData.new.updateBulk ops bulk kin).data.dH
        = kin.getReactionDelta (bulk.getPartialMolarEnthalpies []) []
    ∧ (BlowersMaselData.new.updateBulk ops bulk kin).calls
        = [Call.density, Call.stateMFNumber, Call.temperature,
           Call.getPartialMolarEnthalpies, Call.getReactionDelta,
           Call.updateT bulk.temperature] := by
  have hrho : bulk.density.ne BlowersMaselData.new.density = true :=
    Double.ne_NAN bulk.density
  have h : (bulk.temperature.ne BlowersMaselData.new.temperature
      || bulk.density.ne BlowersMaselData.new.density
      || bulk.stateMFNumber != BlowersMaselData.new.state_mf_number) = true := by
    simp [hrho]
  rw [blowersMasel_updateBulk_differs ops _ bulk kin h]
  exact ⟨hrho, rfl, rfl, rfl⟩

/-- C16, evaluated at a bulk state whose temperature is exactly `1`, the temperature
the fresh record holds. -/
theorem C16_fresh_blowers_masel_witness :
    bulkOne.temperature.ne BlowersMaselData.new.temperature = false
    ∧ (BlowersMaselData.new.updateBulk toyOps bulkOne kinOne).changed = (true, true)
    ∧ (BlowersMaselData.new.updateBulk toyOps bulkOne kinOne).data.dH = [Double.one] :=
  ⟨by decide,
   (C16_fresh_blowers_masel_first_update toyOps bulkOne kinOne).2.1,
   (C16_fresh_blowers_masel_first_update toyOps bulkOne kinOne).2.2.1.trans (by decide)⟩

end Cantera
